import Mathlib

/-!
Shallow embedding of the device-connectivity core of the Mouse-tool
repository (src/mouse_config), with theorems checking the natural-language
specification against the code.

Conventions:
* Python `bytes`/`bytearray` values are `List Nat` whose entries are < 256.
* A Python function that can raise is embedded as an `Option`/`Except`
  returning function; `none`/`.error` is a raised exception.
* `time.sleep` and logging are irrelevant to the stated properties and are
  not modelled.
-/

namespace MouseTool

/-! ### Razer protocol encoder (src/mouse_config/core/protocols.py, class RazerProtocol) -/

namespace RazerProtocol

/-- REPORT_SIZE = 90. -/
def REPORT_SIZE : Nat := 90

/-- Embeds the Python loop `for i, byte in enumerate(data): report[start + i] = byte`:
writes the bytes of `data` into `report` from index `start` on. -/
def writeBytes (report : List Nat) (start : Nat) (data : List Nat) : List Nat :=
  match data with
  | [] => report
  | b :: rest => writeBytes (report.set start b) (start + 1) rest

/-- Embeds the checksum loop `crc = 0; for i in range(2, 88): crc ^= report[i]`:
the XOR of bytes 2..87 of the report. -/
def crcOf (report : List Nat) : Nat :=
  (List.range 86).foldl (fun crc i => Nat.xor crc (report.getD (2 + i) 0)) 0

/-- RazerProtocol.create_report.  The report starts as `bytearray(90)` (all
zero); bytes 0-4 are (re)written to zero, byte 5 is `data_size`, byte 6 the
command class, byte 7 the command id, the payload goes at offset 8, and the
checksum over bytes 2..87 is stored at byte 88.  `none` embeds the
exceptions Python raises while building the report: a `ValueError` when a
stored value does not fit in a byte, an `IndexError` when the payload
overruns the 90-byte buffer (index 8 + i > 89). -/
def create_report (command_class command_id data_size : Nat) (data : List Nat) :
    Option (List Nat) :=
  if command_class < 256 ∧ command_id < 256 ∧ data_size < 256 ∧
      data.all (· < 256) ∧ data.length ≤ 82 then
    let report := List.replicate REPORT_SIZE 0
    let report := ((report.set 5 data_size).set 6 command_class).set 7 command_id
    let report := writeBytes report 8 data
    let crc := crcOf report
    some (report.set 88 crc)
  else
    none

/-- RazerProtocol.set_dpi.  `dpi_y` defaults to `dpi_x` (we model the
single-argument call used by the controller).  `data[1] = int(dpi_x / 100)`
raises a `ValueError` when the scaled value does not fit in a byte, embedded
as `none`. -/
def set_dpi (dpi_x : Nat) : Option (List Nat) :=
  if dpi_x / 100 < 256 then
    create_report 0x04 0x05 0x07 [0x00, dpi_x / 100, dpi_x / 100, 0, 0, 0, 0]
  else
    none

end RazerProtocol

/-- A Python `dict` literal with distinct keys, looked up with `d.get(k)`:
`none` when the key is absent. -/
def dict_get? {κ α : Type} [BEq κ] (m : List (κ × α)) (k : κ) : Option α :=
  (m.find? (fun p => p.1 == k)).map Prod.snd

/-- A Python `d.get(k, default)`. -/
def dict_get {κ α : Type} [BEq κ] (m : List (κ × α)) (k : κ) (default : α) : α :=
  (dict_get? m k).getD default

namespace RazerProtocol

/-- `rate_map = {1000: 0x01, 500: 0x02, 250: 0x04, 125: 0x08}` of
RazerProtocol.set_poll_rate. -/
def rate_map : List (Nat × Nat) := [(1000, 0x01), (500, 0x02), (250, 0x04), (125, 0x08)]

/-- RazerProtocol.set_poll_rate: `data[0] = rate_map.get(rate, 0x01)`,
wrapped as command class 0x00, id 0x05. -/
def set_poll_rate (rate : Nat) : Option (List Nat) :=
  create_report 0x00 0x05 0x01 [dict_get rate_map rate 0x01]

/-- RazerProtocol.set_angle_snapping: payload `[0x01]` when enabled,
`[0x00]` when disabled, command class 0x04, id 0x07. -/
def set_angle_snapping (enabled : Bool) : Option (List Nat) :=
  create_report 0x04 0x07 0x01 [if enabled then 0x01 else 0x00]

end RazerProtocol

/-! ### The other vendors' poll-rate encoders (same file, other classes).
Their reports are plain fixed-size buffers with no checksum; building one
never raises, so they are total. -/

namespace LogitechProtocol

/-- `rate_map = {125: 0x08, 250: 0x04, 500: 0x02, 1000: 0x01}`. -/
def rate_map : List (Nat × Nat) := [(125, 0x08), (250, 0x04), (500, 0x02), (1000, 0x01)]

/-- LogitechProtocol.set_poll_rate: 64-byte report `[0x10, 0xFF, code, 0...]`. -/
def set_poll_rate (rate : Nat) : List Nat :=
  (((List.replicate 64 0).set 0 0x10).set 1 0xFF).set 2 (dict_get rate_map rate 0x01)

end LogitechProtocol

namespace SteelSeriesProtocol

/-- `rate_map = {125: 0x03, 250: 0x02, 500: 0x01, 1000: 0x00}`. -/
def rate_map : List (Nat × Nat) := [(125, 0x03), (250, 0x02), (500, 0x01), (1000, 0x00)]

/-- SteelSeriesProtocol.set_poll_rate: 64-byte report `[0x21, code, 0...]`. -/
def set_poll_rate (rate : Nat) : List Nat :=
  ((List.replicate 64 0).set 0 0x21).set 1 (dict_get rate_map rate 0x00)

end SteelSeriesProtocol

namespace GenericProtocol

/-- `rate_map = {125: 0x03, 250: 0x02, 500: 0x01, 1000: 0x00}`. -/
def rate_map : List (Nat × Nat) := [(125, 0x03), (250, 0x02), (500, 0x01), (1000, 0x00)]

/-- GenericProtocol.set_poll_rate: 64-byte report `[0x02, 0x01, code, 0...]`. -/
def set_poll_rate (rate : Nat) : List Nat :=
  (((List.replicate 64 0).set 0 0x02).set 1 0x01).set 2 (dict_get rate_map rate 0x00)

end GenericProtocol

namespace CyberpowerProtocol

/-- `rate_map = {125: 0x08, 250: 0x04, 500: 0x02, 1000: 0x01}`. -/
def rate_map : List (Nat × Nat) := [(125, 0x08), (250, 0x04), (500, 0x02), (1000, 0x01)]

/-- CyberpowerProtocol.set_poll_rate: 8-byte report `[0x00, 0x11, code, 0...]`. -/
def set_poll_rate (rate : Nat) : List Nat :=
  (((List.replicate 8 0).set 0 0x00).set 1 0x11).set 2 (dict_get rate_map rate 0x01)

end CyberpowerProtocol

namespace IBuyPowerProtocol

/-- `rate_map = {125: 3, 250: 2, 500: 1, 1000: 0}`. -/
def rate_map : List (Nat × Nat) := [(125, 3), (250, 2), (500, 1), (1000, 0)]

/-- IBuyPowerProtocol.set_poll_rate: 65-byte report `[0x00, 0x08, code, 0...]`. -/
def set_poll_rate (rate : Nat) : List Nat :=
  (((List.replicate 65 0).set 0 0x00).set 1 0x08).set 2 (dict_get rate_map rate 0)

end IBuyPowerProtocol

/-! ### Protocol selection (src/mouse_config/core/controller.py, MouseController._get_protocol) -/

/-- The protocol classes MouseController dispatches over. -/
inductive ProtocolKind where
  | razer
  | logitech
  | steelseries
  | generic
  | cyberpower
  | ibuypower
deriving DecidableEq, Repr

namespace MouseController

/-- `protocol_map` of MouseController._get_protocol. -/
def protocol_map : List (String × ProtocolKind) :=
  [("Razer", ProtocolKind.razer),
   ("Logitech", ProtocolKind.logitech),
   ("SteelSeries", ProtocolKind.steelseries),
   ("CyberpowerPC", ProtocolKind.cyberpower),
   ("iBuyPower", ProtocolKind.ibuypower)]

/-- MouseController._get_protocol: `protocol_map.get(self.vendor, GenericProtocol)`. -/
def _get_protocol (vendor : String) : ProtocolKind :=
  dict_get protocol_map vendor ProtocolKind.generic

/-- The range check of MouseController.set_dpi:
`if not (100 <= dpi <= 20000): raise ValueError` (caught, returning False). -/
def dpi_in_range (dpi : Nat) : Bool :=
  decide (100 ≤ dpi ∧ dpi ≤ 20000)

/-- Dispatch `set_poll_rate` on the protocol selected for the device, as
`self.protocol.set_poll_rate(rate)` does.  For the Razer encoder a raised
exception (`none`) propagates. -/
def protocol_set_poll_rate (p : ProtocolKind) (rate : Nat) : Option (List Nat) :=
  match p with
  | ProtocolKind.razer => RazerProtocol.set_poll_rate rate
  | ProtocolKind.logitech => some (LogitechProtocol.set_poll_rate rate)
  | ProtocolKind.steelseries => some (SteelSeriesProtocol.set_poll_rate rate)
  | ProtocolKind.generic => some (GenericProtocol.set_poll_rate rate)
  | ProtocolKind.cyberpower => some (CyberpowerProtocol.set_poll_rate rate)
  | ProtocolKind.ibuypower => some (IBuyPowerProtocol.set_poll_rate rate)

/-- MouseController.set_polling_rate.  Returns the Bool the Python method
returns together with the command buffer it dispatched (`none` when nothing
was encoded or dispatched).  `connected` is `self.connected`; `send_ok` is
the outcome `self.send_command(command)` would have.  A rate outside
`[125, 250, 500, 1000]` raises `ValueError`, which the method catches and
turns into `False` before any encoding. -/
def set_polling_rate (connected send_ok : Bool) (p : ProtocolKind) (rate : Nat) :
    Bool × Option (List Nat) :=
  if connected then
    if rate ∈ ([125, 250, 500, 1000] : List Nat) then
      match protocol_set_poll_rate p rate with
      | some cmd => (send_ok, some cmd)
      | none => (false, none)
    else
      (false, none)
  else
    (false, none)

/-- Which protocol classes define `set_angle_snapping`
(`hasattr(self.protocol, 'set_angle_snapping')`): only RazerProtocol does. -/
def has_set_angle_snapping : ProtocolKind → Bool
  | ProtocolKind.razer => true
  | _ => false

/-- MouseController.set_angle_snapping: returns False without encoding or
dispatching when not connected or when the selected protocol class has no
`set_angle_snapping` attribute. -/
def set_angle_snapping (connected send_ok : Bool) (p : ProtocolKind) (enabled : Bool) :
    Bool × Option (List Nat) :=
  if connected && has_set_angle_snapping p then
    match p with
    | ProtocolKind.razer =>
      match RazerProtocol.set_angle_snapping enabled with
      | some cmd => (send_ok, some cmd)
      | none => (false, none)
    | _ => (false, none)
  else
    (false, none)

end MouseController

/-! ### retry_operation (src/mouse_config/utils/helpers.py)

`for attempt in range(max_retries): try: return func(...) except: if last,
re-raise, else sleep(delay * 2**attempt)`.  The loop leaves the function
when `func` RETURNS — a `False` return is returned at once; only a raised
exception is retried.  When `max_retries = 0` the loop body never runs and
Python returns `None` (embedded as `.ok false`, the falsy result the
callers test). -/

/-- One pass of retry_operation from attempt number `attempt` with
`remaining` attempts left. -/
def retry_loop (f : Nat → Except String Bool) (attempt : Nat) :
    Nat → Except String Bool
  | 0 => Except.ok false
  | remaining + 1 =>
    match f attempt with
    | Except.ok v => Except.ok v
    | Except.error e =>
      if remaining = 0 then Except.error e
      else retry_loop f (attempt + 1) remaining

/-- retry_operation(func, max_retries, ...) with `func` indexed by the
attempt number so an environment can vary between attempts. -/
def retry_operation (f : Nat → Except String Bool) (max_retries : Nat) :
    Except String Bool :=
  retry_loop f 0 max_retries

/-! ### Command dispatch (src/mouse_config/core/controller.py, MouseController) -/

namespace MouseController

/-- The handles a connect strategy may have left on the controller:
`self.device` (HID), `self.usb_device`, `self.usb_endpoint_out`. -/
structure Handles where
  device : Bool
  usb_device : Bool
  usb_endpoint_out : Bool
deriving DecidableEq, Repr

/-- MouseController._attempt_send.  `mech i = true` means the i-th transfer
mechanism would succeed on this pass: 0 = HID feature report, 1 = HID
write, 2 = USB interrupt OUT write (timeout 1000 ms), 3 = control transfer
wValue 0x0300 (set feature report), 4 = control transfer wValue 0x0200
(set output report).  The chain stops at the first success; every failure
is swallowed (`safe_execute` / bare except) and the next mechanism tried;
when all fail the method RETURNS False — it does not raise. -/
def _attempt_send (h : Handles) (mech : Fin 5 → Bool) : Bool :=
  if h.device && mech 0 then true
  else if h.device && mech 1 then true
  else if h.usb_device && h.usb_endpoint_out && mech 2 then true
  else if h.usb_device && mech 3 then true
  else if h.usb_device && mech 4 then true
  else false

/-- MouseController.send_command.  `mech attempt i` is the environment: would
mechanism `i` succeed on attempt number `attempt`?  The command buffer
itself does not influence control flow and is omitted.  Because
`_attempt_send` reports failure by returning False and never raises,
`retry_operation` hands that False straight back on the first attempt. -/
def send_command (connected : Bool) (h : Handles) (mech : Nat → Fin 5 → Bool)
    (retries : Nat) : Bool :=
  if connected then
    match retry_operation (fun attempt => Except.ok (_attempt_send h (mech attempt))) retries with
    | Except.ok v => v
    | Except.error _ => false
  else
    false

end MouseController

/-! ### Connection supervisor (src/mouse_config/advanced/robust_connection.py) -/

/-- ConnectionState enumeration. -/
inductive ConnectionState where
  | disconnected
  | connecting
  | connected
  | error
  | reconnecting
deriving DecidableEq, Repr

namespace RobustConnectionManager

/-- config['max_reconnect_attempts'] = 5. -/
def max_reconnect_attempts : Nat := 5

/-- config['reconnect_delay'] = 2.0 s, in milliseconds. -/
def reconnect_delay_ms : Nat := 2000

/-- config['max_consecutive_errors'] = 3. -/
def max_consecutive_errors : Nat := 3

/-- The manager state send_command touches: the connection state, the
metrics' error counter, and whether a controller handle is attached. -/
structure MgrState where
  state : ConnectionState
  error_count : Nat
  controller : Bool
deriving DecidableEq, Repr

/-- RobustConnectionManager._handle_command_failure: bumps
`metrics.error_count` (again — send_command already did once) and moves to
RECONNECTING via _initiate_reconnect when the threshold is reached. -/
def _handle_command_failure (m : MgrState) : MgrState :=
  let m := { m with error_count := m.error_count + 1 }
  if max_consecutive_errors ≤ m.error_count then
    { m with state := ConnectionState.reconnecting }
  else
    m

/-- RobustConnectionManager.send_command.  Returns (result, the transfer
mechanisms actually invoked, the state afterwards).  While
`state != CONNECTED` it returns False at once, touching nothing.  When
connected, it calls `retry_operation(self._send_command_internal,
max_retries=retries, delay=0.1, args=(command,))`: `retry_operation` has no
`args` parameter, so `args=(command,)` lands in its `**kwargs` and is
forwarded to `_send_command_internal` as an unexpected keyword argument —
every attempt raises TypeError before any transfer mechanism runs, the
re-raised error is caught by send_command's `except`, the error counter is
bumped and _handle_command_failure runs. -/
def send_command (m : MgrState) (retries : Nat) : Bool × List (Fin 5) × MgrState :=
  if m.state = ConnectionState.connected then
    match retry_operation (fun _ => Except.error ("TypeError: unexpected keyword argument")) retries with
    | Except.ok v =>
      if v then (true, [], m)
      else (false, [], _handle_command_failure { m with error_count := m.error_count + 1 })
    | Except.error _ =>
      (false, [], _handle_command_failure { m with error_count := m.error_count + 1 })
  else
    (false, [], m)

/-- The supervisor state the reconnect path touches: the connection state,
`metrics.reconnect_count`, and the delays handed to `threading.Timer`, in
order, in milliseconds. -/
structure SupState where
  state : ConnectionState
  reconnect_count : Nat
  delays_ms : List Nat
deriving DecidableEq, Repr

/-- RobustConnectionManager._initiate_reconnect (with auto_reconnect on and
no timer pending): state := RECONNECTING and a first timer armed with
config['reconnect_delay'] = 2.0 s. -/
def _initiate_reconnect (m : SupState) : SupState :=
  { m with state := ConnectionState.reconnecting,
           delays_ms := m.delays_ms ++ [reconnect_delay_ms] }

/-- RobustConnectionManager._schedule_reconnect_retry:
`delay = reconnect_delay * 2 ** min(metrics.reconnect_count, 3)` while
`metrics.reconnect_count < max_reconnect_attempts`, else state := ERROR.
`metrics.reconnect_count` is the field _attempt_reconnect increments ONLY
on a successful reconnect. -/
def _schedule_reconnect_retry (m : SupState) : SupState :=
  if m.reconnect_count < max_reconnect_attempts then
    { m with delays_ms :=
        m.delays_ms ++ [reconnect_delay_ms * 2 ^ (min m.reconnect_count 3)] }
  else
    { m with state := ConnectionState.error }

/-- RobustConnectionManager._attempt_reconnect when the timer fires:
tears down, then `self.connect()`.  On success connect() sets CONNECTED and
_attempt_reconnect bumps `metrics.reconnect_count`; on failure connect()
itself sets state = ERROR and _schedule_reconnect_retry arms the next
timer. -/
def _attempt_reconnect (ok : Bool) (m : SupState) : SupState :=
  if ok then
    { m with state := ConnectionState.connected,
             reconnect_count := m.reconnect_count + 1 }
  else
    _schedule_reconnect_retry { m with state := ConnectionState.error }

/-- A run of reconnect attempts: `outcomes` lists whether each successive
`connect()` call succeeds. -/
def run_reconnects (m : SupState) (outcomes : List Bool) : SupState :=
  outcomes.foldl (fun st ok => _attempt_reconnect ok st) m

end RobustConnectionManager

/-! ### Device enumeration (src/mouse_config/core/detection.py, MouseDetector) -/

/-- Does `needle` occur at the head of `hay`? -/
def starts_with_chars : List Char → List Char → Bool
  | [], _ => true
  | _ :: _, [] => false
  | a :: as, b :: bs => a == b && starts_with_chars as bs

/-- Does `needle` occur anywhere in `hay`? -/
def has_sub_chars (needle : List Char) : List Char → Bool
  | [] => starts_with_chars needle []
  | b :: bs => starts_with_chars needle (b :: bs) || has_sub_chars needle bs

/-- Python `needle in hay` on strings. -/
def str_contains (hay needle : String) : Bool :=
  has_sub_chars needle.data hay.data

/-- Python `'%04X' % n`: upper-case hex, zero-padded to at least 4 digits. -/
def hex04X (n : Nat) : String :=
  let ds := (Nat.toDigits 16 n).map Char.toUpper
  String.mk (List.replicate (4 - ds.length) '0' ++ ds)

/-- One entry of `hid.enumerate()`: the keys the scanner subscripts
(`vendor_id`, `product_id`, `path`) are always present in a hidapi record;
the ones it reads with `.get(key, default)` may be absent (`none`). -/
structure HidDeviceInfo where
  vendor_id : Nat
  product_id : Nat
  path : String
  serial_number : Option String
  interface_number : Option Int
  usage_page : Option Nat
  usage : Option Nat
  product_string : Option String
  manufacturer_string : Option String
  release_number : Option Nat
deriving DecidableEq, Repr

/-- The `mouse_info` dict scan_devices builds per accepted device. -/
structure MouseInfo where
  vendor_id : Nat
  product_id : Nat
  vendor : String
  product : String
  path : String
  serial : String
  interface : Int
  usage_page : Nat
  usage : Nat
  manufacturer : String
  release : Nat
deriving DecidableEq, Repr

namespace MouseDetector

/-- MouseDetector.VENDOR_IDS. -/
def VENDOR_IDS : List (Nat × String) :=
  [(0x1532, "Razer"), (0x26CE, "iBuyPower"), (0x1B1C, "CyberpowerPC"),
   (0x1044, "CyberpowerPC"), (0x046D, "Logitech"), (0x045E, "Microsoft"),
   (0x09DA, "A4Tech"), (0x1E7D, "ZOWIE"), (0x1D57, "ZOWIE"),
   (0x0B05, "ASUS"), (0x0BDA, "Realtek"), (0x1926, "ROCCAT"),
   (0x1BCF, "Xiaomi"), (0x2EA8, "Glorious"), (0x2516, "SteelSeries"),
   (0x1538, "Razer"), (0x0F2D, "EVGA"), (0x0E6F, "Logic3"),
   (0x20A0, "NZXT"), (0x1E71, "HyperX"), (0x0DB0, "Astro"),
   (0x040B, "NEC"), (0x056E, "Elecom"), (0x04D9, "Hama"),
   (0x093A, "AIPTEK"), (0x0C45, "Sonix"), (0x099A, "Genius"),
   (0x17EF, "Lenovo"), (0x04F2, "Chicony"), (0x05AC, "Apple"),
   (0x0A5C, "Broadcom"), (0x8087, "Intel")]

/-- MouseDetector.RAZER_PRODUCTS. -/
def RAZER_PRODUCTS : List (Nat × String) :=
  [(0x0084, "DeathAdder V2"), (0x0070, "Viper Ultimate"),
   (0x007C, "Viper Mini"), (0x0078, "Viper"),
   (0x0043, "DeathAdder Chroma"), (0x0053, "Mamba Elite"),
   (0x006C, "Basilisk V2"), (0x0071, "Basilisk Ultimate"),
   (0x0082, "Naga Pro"), (0x008F, "Naga X"),
   (0x0024, "Mamba"), (0x0029, "DeathAdder"),
   (0x00A5, "DeathAdder V3"), (0x00A6, "DeathAdder V3 Pro"),
   (0x00A7, "Viper V2 Pro"), (0x00A8, "Basilisk V3"),
   (0x00A9, "Naga V2 Pro"), (0x00AA, "HyperPolling Wireless Dongle"),
   (0x00AB, "Lancehead TE"), (0x00AC, "Lancehead"),
   (0x00AD, "Orochi"), (0x00AE, "Atheris"),
   (0x00AF, "Naga Left-Handed"), (0x00B0, "Naga Trinity"),
   (0x00B1, "Naga Chroma"), (0x00B2, "Naga Hex V2"),
   (0x00B3, "Imperator"), (0x00B4, "Taipan"),
   (0x00B5, "Ouroboros"), (0x00B6, "Mamba Wireless"),
   (0x00B7, "Mamba Tournament Edition"), (0x00B8, "Diamondback Chroma"),
   (0x00B9, "Naga Epic Chroma"), (0x00BA, "Naga Molten"),
   (0x00BB, "Naga 2012"), (0x00BC, "Naga 2014"),
   (0x00BD, "DeathAdder 2013"), (0x00BE, "DeathAdder 3.5G"),
   (0x00BF, "DeathAdder 3G"), (0x00C0, "Imperator 2012"),
   (0x00C1, "Lachesis 5600"), (0x00C2, "Lachesis")]

/-- MouseDetector.LOGITECH_PRODUCTS. -/
def LOGITECH_PRODUCTS : List (Nat × String) :=
  [(0xC077, "G502 HERO"), (0xC082, "G703 HERO"),
   (0xC086, "G903 HERO"), (0xC08A, "G PRO X SUPERLIGHT"),
   (0xC08B, "G PRO WIRELESS"), (0xC08C, "G PRO"),
   (0xC08D, "G403 HERO"), (0xC08E, "G403"),
   (0xC08F, "G703"), (0xC090, "G903"),
   (0xC091, "G502 PROTEUS CORE"), (0xC092, "G502"),
   (0xC093, "G303"), (0xC094, "G302"),
   (0xC095, "G600"), (0xC096, "G700s"),
   (0xC097, "G500"), (0xC098, "G400"),
   (0xC099, "G300s"), (0xC09A, "G300"),
   (0xC09B, "G700"), (0xC09C, "G500s"),
   (0xC09D, "G400s"), (0xC09E, "G100s"),
   (0xC09F, "G602"), (0xC0A0, "G603"),
   (0xC0A1, "G305"), (0xC0A2, "G Prodigy"),
   (0xC0A3, "G203"), (0xC0A4, "G102"),
   (0xC0A5, "G402"), (0xC0A6, "G502 LIGHTSPEED"),
   (0xC0A7, "G703 LIGHTSPEED"), (0xC0A8, "G903 LIGHTSPEED"),
   (0xC0A9, "G PRO X LIGHTSPEED"), (0xC0AA, "G PRO LIGHTSPEED"),
   (0xC0AB, "G502 X"), (0xC0AC, "G502 X PLUS"),
   (0xC0AD, "G703 X"), (0xC0AE, "G903 X"),
   (0xC0AF, "G PRO X SUPERLIGHT 2"), (0xC0B0, "G PRO X TKL")]

/-- MouseDetector.STEELSERIES_PRODUCTS. -/
def STEELSERIES_PRODUCTS : List (Nat × String) :=
  [(0x1800, "Rival 650"), (0x1801, "Rival 650 Wireless"),
   (0x1802, "Rival 710"), (0x1803, "Rival 600"),
   (0x1804, "Rival 500"), (0x1805, "Rival 300"),
   (0x1806, "Rival 110"), (0x1807, "Rival 106"),
   (0x1808, "Rival 95"), (0x1809, "Rival 3"),
   (0x180A, "Rival 310"), (0x180B, "Rival 300S"),
   (0x180C, "Rival 105"), (0x180D, "Rival 100"),
   (0x180E, "Sensei 310"), (0x180F, "Sensei 300"),
   (0x1810, "Sensei Ten"), (0x1811, "Sensei RAW"),
   (0x1812, "Prime"), (0x1813, "Prime Wireless"),
   (0x1814, "Prime Mini"), (0x1815, "Prime Mini Wireless"),
   (0x1816, "Aerox 3"), (0x1817, "Aerox 3 Wireless"),
   (0x1818, "Aerox 5"), (0x1819, "Aerox 5 Wireless"),
   (0x181A, "Aerox 9"), (0x181B, "Aerox 9 Wireless"),
   (0x181C, "Rival 5"), (0x181D, "Rival 3 Wireless"),
   (0x181E, "Rival 650"), (0x181F, "Rival 650")]

/-- The mouse keyword list of is_mouse_interface. -/
def mouse_keywords : List String :=
  ["mouse", "viper", "deathadder", "basilisk", "mamba", "naga",
   "rival", "g502", "g703", "g903", "g pro", "sensei", "prime"]

/-- The exclusion keyword list of is_mouse_interface. -/
def exclude_keywords : List String :=
  ["keyboard", "dongle", "receiver", "dock", "headset"]

/-- MouseDetector.is_mouse_interface.  Total: every dict access uses
`.get` with a default, so the `except` branch is unreachable. -/
def is_mouse_interface (d : HidDeviceInfo) : Bool :=
  let usage_page := d.usage_page.getD 0
  let usage := d.usage.getD 0
  if usage_page == 0x01 && (usage == 0x02 || usage == 0x06) then true
  else
    let interface := d.interface_number.getD (-1)
    if interface > 2 then false
    else
      let product_str := (d.product_string.getD ( "" )).toLower
      if mouse_keywords.any (fun k => str_contains product_str k) then true
      else if exclude_keywords.any (fun k => str_contains product_str k) then false
      else if (interface == 0 || interface == 1 || interface == 2) && product_str == "" then
        true
      else false

/-- The `mouse_info` dict appended for an accepted device. -/
def mk_mouse_info (d : HidDeviceInfo) (vendor product : String) : MouseInfo :=
  { vendor_id := d.vendor_id, product_id := d.product_id,
    vendor := vendor, product := product, path := d.path,
    serial := d.serial_number.getD ( "" ),
    interface := d.interface_number.getD (-1),
    usage_page := d.usage_page.getD 0, usage := d.usage.getD 0,
    manufacturer := d.manufacturer_string.getD ( "" ),
    release := d.release_number.getD 0 }

/-- The scan loop's running state: the `seen_devices` set (as the list of
keys in first-seen order) and `self.detected_mice`. -/
structure ScanAcc where
  seen : List (Nat × Nat × Int)
  mice : List MouseInfo
deriving DecidableEq, Repr

/-- One iteration of the `for device in devices` loop of scan_devices. -/
def scan_step (acc : ScanAcc) (d : HidDeviceInfo) : ScanAcc :=
  let vid := d.vendor_id
  let pid := d.product_id
  match dict_get? VENDOR_IDS vid with
  | none => acc
  | some vendor_name =>
    if !is_mouse_interface d then acc
    else
      let key : Nat × Nat × Int := (vid, pid, d.interface_number.getD (-1))
      if key ∈ acc.seen then acc
      else
        let seen := acc.seen ++ [key]
        let product_name := d.product_string.getD ( "" )
        let product_name :=
          if vid == 0x1532 && (dict_get? RAZER_PRODUCTS pid).isSome then
            dict_get RAZER_PRODUCTS pid product_name
          else if vid == 0x046D && (dict_get? LOGITECH_PRODUCTS pid).isSome then
            dict_get LOGITECH_PRODUCTS pid product_name
          else if vid == 0x2516 && (dict_get? STEELSERIES_PRODUCTS pid).isSome then
            dict_get STEELSERIES_PRODUCTS pid product_name
          else product_name
        if product_name == "" then
          if vid == 0x1532 && !(dict_get? RAZER_PRODUCTS pid).isSome then
            { seen := seen, mice := acc.mice }
          else
            { seen := seen,
              mice := acc.mice ++
                [mk_mouse_info d vendor_name ("Gaming Mouse (PID: 0x" ++ hex04X pid ++ ")")] }
        else
          { seen := seen, mice := acc.mice ++ [mk_mouse_info d vendor_name product_name] }

/-- The whole loop over `hid.enumerate()`'s result. -/
def process_devices (devices : List HidDeviceInfo) : List MouseInfo :=
  (devices.foldl scan_step { seen := [], mice := [] }).mice

/-- The body of scan_devices' outer `try`: `hid.enumerate()` either raises
or yields the device list the loop then processes. -/
def scan_devices_body (enumeration : Except String (List HidDeviceInfo)) :
    Except String (List MouseInfo) :=
  match enumeration with
  | Except.error e => Except.error e
  | Except.ok devices => Except.ok (process_devices devices)

/-- MouseDetector.scan_devices.  `hid = none` is `import hid` failing
(`except ImportError: return []`); `some enumeration` is the HID library
present with `hid.enumerate()` either raising or returning devices.  The
outer `except Exception` prints and falls through to
`return self.detected_mice`, which is still the empty list reset at entry
when `hid.enumerate()` itself raised. -/
def scan_devices (hid : Option (Except String (List HidDeviceInfo))) : List MouseInfo :=
  match hid with
  | none => []
  | some enumeration =>
    match scan_devices_body enumeration with
    | Except.ok mice => mice
    | Except.error _ => []

end MouseDetector

/-! ### Controller teardown (src/mouse_config/core/controller.py, MouseController.disconnect) -/

namespace MouseController

/-- Which teardown sub-steps raise in this run's environment. -/
structure TeardownEnv where
  close_raises : Bool
  release_raises : Bool
  attach_raises : Bool
  dispose_raises : Bool
deriving DecidableEq, Repr

/-- The controller fields disconnect reads and clears. -/
structure CtrlState where
  device : Bool
  usb_device : Bool
  interface_claimed : Option Nat
  kernel_driver_detached : Bool
  connected : Bool
deriving DecidableEq, Repr

/-- The resource-teardown calls disconnect can make, in invocation order. -/
inductive TeardownAction where
  | close_device
  | release_interface (i : Nat)
  | attach_kernel_driver (i : Nat)
  | dispose_resources
deriving DecidableEq, Repr

/-- The controller state after a successful strategy-5 connect
(_connect_usb_detach_driver) that detached the kernel driver on interface
`i` and claimed it: no HID handle, a USB handle, `interface_claimed = i`,
`kernel_driver_detached = True`, connected. -/
def strategy5_state (i : Nat) : CtrlState :=
  { device := false, usb_device := true, interface_claimed := some i,
    kernel_driver_detached := true, connected := true }

/-- MouseController.disconnect: returns the teardown calls it made, in
order, and the state it leaves.  It is total — every sub-step failure is
caught (`except: pass`), so disconnect never raises — but a raising
`release_interface` aborts the surrounding `try` block, skipping the
kernel-driver reattachment and `dispose_resources`. -/
def disconnect (s : CtrlState) (env : TeardownEnv) : List TeardownAction × CtrlState :=
  let acts : List TeardownAction := if s.device then [TeardownAction.close_device] else []
  let s := { s with device := false }
  if s.usb_device then
    let done :=
      match s.interface_claimed with
      | some i =>
        let acts := acts ++ [TeardownAction.release_interface i]
        if env.release_raises then
          acts
        else
          let acts :=
            if s.kernel_driver_detached then acts ++ [TeardownAction.attach_kernel_driver i]
            else acts
          acts ++ [TeardownAction.dispose_resources]
      | none =>
        acts ++ [TeardownAction.dispose_resources]
    (done, { s with usb_device := false, connected := false })
  else
    (acts, { s with connected := false })

end MouseController

/-! ### Helper lemmas about the report construction -/

theorem writeBytes_length (data : List Nat) (report : List Nat) (start : Nat) :
    (RazerProtocol.writeBytes report start data).length = report.length := by
  induction data generalizing report start with
  | nil => rfl
  | cons b rest ih =>
    simp [RazerProtocol.writeBytes, ih, List.length_set]

theorem writeBytes_getD_lt (data : List Nat) (report : List Nat) (start j : Nat)
    (h : j < start) :
    (RazerProtocol.writeBytes report start data).getD j 0 = report.getD j 0 := by
  induction data generalizing report start with
  | nil => rfl
  | cons b rest ih =>
    rw [RazerProtocol.writeBytes, ih _ _ (Nat.lt_succ_of_lt h)]
    simp only [List.getD_eq_getElem?_getD, List.getElem?_set]
    rw [if_neg (by omega)]

theorem getD_set_ne (l : List Nat) (i j v : Nat) (h : i ≠ j) :
    (l.set i v).getD j 0 = l.getD j 0 := by
  simp only [List.getD_eq_getElem?_getD, List.getElem?_set]
  rw [if_neg h]

theorem crcOf_set_88 (l : List Nat) (v : Nat) :
    RazerProtocol.crcOf (l.set 88 v) = RazerProtocol.crcOf l := by
  unfold RazerProtocol.crcOf
  apply List.foldl_ext
  intro a i hi
  have hi86 : i < 86 := List.mem_range.mp hi
  rw [getD_set_ne _ _ _ _ (by omega)]

/-- Everything C1 needs about a successfully built report, sharable by the
other claims: 90 bytes, bytes 0-4 zero, and byte 88 the XOR of bytes 2..87
of the final buffer. -/
theorem create_report_spec (command_class command_id data_size : Nat)
    (data : List Nat) (rpt : List Nat)
    (h : RazerProtocol.create_report command_class command_id data_size data = some rpt) :
    rpt.length = 90 ∧
    rpt.getD 0 0 = 0 ∧ rpt.getD 1 0 = 0 ∧ rpt.getD 2 0 = 0 ∧
    rpt.getD 3 0 = 0 ∧ rpt.getD 4 0 = 0 ∧
    rpt.getD 88 0 = RazerProtocol.crcOf rpt := by
  unfold RazerProtocol.create_report at h
  split at h
  case isFalse => exact absurd h (by simp)
  case isTrue hcond =>
    obtain ⟨hcc, hci, hds, hall, hlen⟩ := hcond
    set base : List Nat :=
      (((List.replicate RazerProtocol.REPORT_SIZE 0).set 5 data_size).set 6
        command_class).set 7 command_id with hbase
    set rep : List Nat := RazerProtocol.writeBytes base 8 data with hrep
    have hrpt : rpt = rep.set 88 (RazerProtocol.crcOf rep) := by
      simpa using h.symm
    have hbaselen : base.length = 90 := by
      simp [hbase, RazerProtocol.REPORT_SIZE]
    have hreplen : rep.length = 90 := by
      rw [hrep, writeBytes_length, hbaselen]
    have hlow : ∀ j, j < 5 → rep.getD j 0 = 0 := by
      intro j hj
      rw [hrep, writeBytes_getD_lt _ _ _ _ (by omega), hbase]
      rw [getD_set_ne _ _ _ _ (by omega), getD_set_ne _ _ _ _ (by omega),
        getD_set_ne _ _ _ _ (by omega)]
      rw [List.getD_eq_getElem?_getD]
      exact List.getElem?_getD_replicate_default_eq _ _ _
    refine ⟨?_, ?_, ?_, ?_, ?_, ?_, ?_⟩
    · rw [hrpt, List.length_set, hreplen]
    · rw [hrpt, getD_set_ne _ _ _ _ (by omega)]; exact hlow 0 (by omega)
    · rw [hrpt, getD_set_ne _ _ _ _ (by omega)]; exact hlow 1 (by omega)
    · rw [hrpt, getD_set_ne _ _ _ _ (by omega)]; exact hlow 2 (by omega)
    · rw [hrpt, getD_set_ne _ _ _ _ (by omega)]; exact hlow 3 (by omega)
    · rw [hrpt, getD_set_ne _ _ _ _ (by omega)]; exact hlow 4 (by omega)
    · rw [hrpt, crcOf_set_88]
      simp only [List.getD_eq_getElem?_getD, List.getElem?_set]
      simp [hreplen]

/-- C1: every buffer produced by RazerProtocol.create_report — for every
command class, command id, data size and payload — is exactly 90 bytes
long, has bytes 0-4 zero, and has byte 88 equal to the XOR of bytes 2..87
of that same buffer. -/
theorem C1_razer_report_invariants (command_class command_id data_size : Nat)
    (data : List Nat) (rpt : List Nat)
    (h : RazerProtocol.create_report command_class command_id data_size data = some rpt) :
    rpt.length = 90 ∧
    rpt.getD 0 0 = 0 ∧ rpt.getD 1 0 = 0 ∧ rpt.getD 2 0 = 0 ∧
    rpt.getD 3 0 = 0 ∧ rpt.getD 4 0 = 0 ∧
    rpt.getD 88 0 = RazerProtocol.crcOf rpt :=
  create_report_spec command_class command_id data_size data rpt h

/-- Witness for C1: the invariants hold at the concrete all-0xFF payload of
length 7 sent as command class 4, command id 5. -/
theorem C1_razer_report_invariants_witness :
    ((RazerProtocol.create_report 4 5 7 (List.replicate 7 255)).getD []).length = 90 ∧
    ((RazerProtocol.create_report 4 5 7 (List.replicate 7 255)).getD []).getD 0 0 = 0 ∧
    ((RazerProtocol.create_report 4 5 7 (List.replicate 7 255)).getD []).getD 1 0 = 0 ∧
    ((RazerProtocol.create_report 4 5 7 (List.replicate 7 255)).getD []).getD 2 0 = 0 ∧
    ((RazerProtocol.create_report 4 5 7 (List.replicate 7 255)).getD []).getD 3 0 = 0 ∧
    ((RazerProtocol.create_report 4 5 7 (List.replicate 7 255)).getD []).getD 4 0 = 0 ∧
    ((RazerProtocol.create_report 4 5 7 (List.replicate 7 255)).getD []).getD 88 0 =
      RazerProtocol.crcOf ((RazerProtocol.create_report 4 5 7 (List.replicate 7 255)).getD []) :=
  C1_razer_report_invariants 4 5 7 (List.replicate 7 255)
    ((RazerProtocol.create_report 4 5 7 (List.replicate 7 255)).getD []) (by decide)

/-- A create_report call whose arguments all fit in bytes and whose payload
fits the buffer returns a report, and that report has 90 bytes. -/
theorem create_report_some (cc ci ds : Nat) (data : List Nat)
    (h1 : cc < 256) (h2 : ci < 256) (h3 : ds < 256)
    (h4 : data.all (· < 256) = true) (h5 : data.length ≤ 82) :
    (RazerProtocol.create_report cc ci ds data).isSome = true ∧
    ((RazerProtocol.create_report cc ci ds data).getD []).length = 90 := by
  unfold RazerProtocol.create_report
  rw [if_pos ⟨h1, h2, h3, h4, h5⟩]
  refine ⟨rfl, ?_⟩
  simp [List.length_set, writeBytes_length, RazerProtocol.REPORT_SIZE]

/-- C2: the encoder selected for vendor "Razer" (the vendor name the scanner
assigns to vendor id 0x1532, e.g. product id 0x0084) is the Razer one, and
its set_dpi(800) yields a 90-byte buffer with byte 5 = 7 (payload length),
byte 6 = 0x04, byte 7 = 0x05, byte 8 = 0, byte 9 = byte 10 = 8 (800/100),
and byte 88 equal to the XOR of bytes 2..87 of the same buffer. -/
theorem C2_razer_set_dpi_800_scenario :
    MouseController._get_protocol ("Razer") = ProtocolKind.razer ∧
    dict_get? MouseDetector.VENDOR_IDS 0x1532 = some ("Razer") ∧
    (dict_get? MouseDetector.RAZER_PRODUCTS 0x0084).isSome = true ∧
    (RazerProtocol.set_dpi 800).isSome = true ∧
    ((RazerProtocol.set_dpi 800).getD []).length = 90 ∧
    ((RazerProtocol.set_dpi 800).getD []).getD 5 0 = 7 ∧
    ((RazerProtocol.set_dpi 800).getD []).getD 6 0 = 0x04 ∧
    ((RazerProtocol.set_dpi 800).getD []).getD 7 0 = 0x05 ∧
    ((RazerProtocol.set_dpi 800).getD []).getD 8 0 = 0 ∧
    ((RazerProtocol.set_dpi 800).getD []).getD 9 0 = 8 ∧
    ((RazerProtocol.set_dpi 800).getD []).getD 10 0 = 8 ∧
    ((RazerProtocol.set_dpi 800).getD []).getD 88 0 =
      RazerProtocol.crcOf ((RazerProtocol.set_dpi 800).getD []) := by
  decide

/-- C9: RazerProtocol.set_dpi(dpi) builds a well-formed 90-byte report
whenever dpi/100 fits in a byte (dpi ≤ 25599), raises (returns `none`) as
soon as dpi/100 > 255 (dpi ≥ 25600), and the failing branch is unreachable
from MouseController.set_dpi's validated range 100 ≤ dpi ≤ 20000. -/
theorem C9_razer_dpi_byte_ceiling (dpi : Nat) :
    (dpi / 100 ≤ 255 →
      (RazerProtocol.set_dpi dpi).isSome = true ∧
      ((RazerProtocol.set_dpi dpi).getD []).length = 90) ∧
    (255 < dpi / 100 → RazerProtocol.set_dpi dpi = none) ∧
    (MouseController.dpi_in_range dpi = true →
      (RazerProtocol.set_dpi dpi).isSome = true) := by
  have hA : dpi / 100 ≤ 255 →
      (RazerProtocol.set_dpi dpi).isSome = true ∧
      ((RazerProtocol.set_dpi dpi).getD []).length = 90 := by
    intro h
    have hd : dpi / 100 < 256 := by omega
    unfold RazerProtocol.set_dpi
    rw [if_pos hd]
    refine create_report_some 0x04 0x05 0x07 _ (by omega) (by omega) (by omega) ?_ (by simp)
    simp only [List.all_cons, List.all_nil, Bool.and_eq_true, decide_eq_true_eq, and_true]
    omega
  refine ⟨hA, ?_, ?_⟩
  · intro h
    unfold RazerProtocol.set_dpi
    rw [if_neg (by omega)]
  · intro h
    simp only [MouseController.dpi_in_range, decide_eq_true_eq] at h
    exact (hA (by omega)).1

/-- Witness for C9: dpi 800 encodes, dpi 25600 raises, and the top of the
validated range (20000) encodes. -/
theorem C9_razer_dpi_byte_ceiling_witness :
    ((RazerProtocol.set_dpi 800).isSome = true ∧
      ((RazerProtocol.set_dpi 800).getD []).length = 90) ∧
    RazerProtocol.set_dpi 25600 = none ∧
    (RazerProtocol.set_dpi 20000).isSome = true :=
  ⟨(C9_razer_dpi_byte_ceiling 800).1 (by decide),
   (C9_razer_dpi_byte_ceiling 25600).2.1 (by decide),
   (C9_razer_dpi_byte_ceiling 20000).2.2 (by decide)⟩

/-- With at least one attempt allowed, MouseController.send_command returns
whatever the FIRST pass over the five mechanisms returns: since
_attempt_send signals failure by returning False instead of raising,
retry_operation hands that False back at once and the `retries` argument
and the 100 ms backoff never come into play. -/
theorem send_command_single_pass (h : MouseController.Handles)
    (mech : Nat → Fin 5 → Bool) (retries : Nat) (hr : 1 ≤ retries) :
    MouseController.send_command true h mech retries = MouseController._attempt_send h (mech 0) := by
  match retries, hr with
  | r + 1, _ =>
    simp [MouseController.send_command, retry_operation, retry_loop]

/-- C3 (evaluating the code at the failing input): with retries = 3, every
mechanism failing on the first pass and the HID feature-report write
succeeding on every later pass, send_command returns False — the later
passes the claim promises never happen; and the robust manager's
send_command returns False and invokes no transfer mechanism even when
every mechanism would succeed, because the `args=(command,)` keyword makes
every retry_operation attempt raise TypeError (the error counter is bumped
twice and the state left CONNECTED). -/
theorem C3_send_retry_is_inert :
    MouseController.send_command true
      { device := true, usb_device := true, usb_endpoint_out := true }
      (fun attempt _ => decide (0 < attempt)) 3 = false ∧
    MouseController._attempt_send
      { device := true, usb_device := true, usb_endpoint_out := true }
      ((fun attempt _ => decide (0 < attempt)) 1) = true ∧
    RobustConnectionManager.send_command
      { state := ConnectionState.connected, error_count := 0, controller := true } 3 =
      (false, [],
        { state := ConnectionState.connected, error_count := 2, controller := true }) := by
  refine ⟨by decide, by decide, by decide⟩

/-- C4: a send_command issued while the manager state is not CONNECTED
returns False at once, invokes no transfer mechanism and leaves the state
(error counter and controller handle included) untouched; likewise the
controller-level send_command returns False while not connected. -/
theorem C4_send_rejected_unless_connected (m : RobustConnectionManager.MgrState)
    (hnd : MouseController.Handles) (mech : Nat → Fin 5 → Bool) (retries : Nat)
    (hs : m.state ≠ ConnectionState.connected) :
    RobustConnectionManager.send_command m retries = (false, [], m) ∧
    MouseController.send_command false hnd mech retries = false := by
  constructor
  · simp [RobustConnectionManager.send_command, hs]
  · rfl

/-- Witness for C4: a disconnected manager with a live handle and a retry
budget of 3 rejects the send and is left unchanged. -/
theorem C4_send_rejected_unless_connected_witness :
    RobustConnectionManager.send_command
      { state := ConnectionState.disconnected, error_count := 0, controller := true } 3 =
      (false, [],
        { state := ConnectionState.disconnected, error_count := 0, controller := true }) ∧
    MouseController.send_command false
      { device := true, usb_device := true, usb_endpoint_out := true }
      (fun _ _ => true) 3 = false :=
  C4_send_rejected_unless_connected
    { state := ConnectionState.disconnected, error_count := 0, controller := true }
    { device := true, usb_device := true, usb_endpoint_out := true }
    (fun _ _ => true) 3 (by decide)

/-- C5 (evaluating the code at the failing input): from a fresh manager
(reconnect_count = 0) whose five successive reconnection attempts all fail,
the delays armed are 2000 ms before every attempt — not 2000, 4000, 8000,
16000, 16000 — because `metrics.reconnect_count` is incremented only on a
SUCCESSFUL reconnect; and since 0 < max_reconnect_attempts stays true, a
sixth timer is armed (six delays in all) instead of reaching a terminal
ERROR: the final `.error` here is the one connect() sets on every failed
attempt, with another retry already scheduled. -/
theorem C5_reconnect_delay_run :
    RobustConnectionManager.run_reconnects
      (RobustConnectionManager._initiate_reconnect
        { state := ConnectionState.connected, reconnect_count := 0, delays_ms := [] })
      (List.replicate 5 false) =
      { state := ConnectionState.error, reconnect_count := 0,
        delays_ms := List.replicate 6 2000 } := by
  decide

/-- C6: on each of the four legal rates every vendor's rate table has an
entry (the `.get` default is never used) and the encoders emit the fixed
table codes; on any other rate the caller-facing set_polling_rate rejects
by validation, returning False with nothing encoded or dispatched. -/
theorem C6_poll_rate_tables (connected send_ok : Bool) (p : ProtocolKind) (rate : Nat) :
    (rate ∈ ([125, 250, 500, 1000] : List Nat) →
      (dict_get? RazerProtocol.rate_map rate).isSome = true ∧
      (dict_get? LogitechProtocol.rate_map rate).isSome = true ∧
      (dict_get? SteelSeriesProtocol.rate_map rate).isSome = true ∧
      (dict_get? GenericProtocol.rate_map rate).isSome = true ∧
      (dict_get? CyberpowerProtocol.rate_map rate).isSome = true ∧
      (dict_get? IBuyPowerProtocol.rate_map rate).isSome = true ∧
      (MouseController.protocol_set_poll_rate p rate).isSome = true) ∧
    (rate ∉ ([125, 250, 500, 1000] : List Nat) →
      MouseController.set_polling_rate connected send_ok p rate = (false, none)) ∧
    (((RazerProtocol.set_poll_rate 1000).getD []).getD 8 0 = 0x01 ∧
     ((RazerProtocol.set_poll_rate 500).getD []).getD 8 0 = 0x02 ∧
     ((RazerProtocol.set_poll_rate 250).getD []).getD 8 0 = 0x04 ∧
     ((RazerProtocol.set_poll_rate 125).getD []).getD 8 0 = 0x08 ∧
     (LogitechProtocol.set_poll_rate 125).getD 2 0 = 0x08 ∧
     (LogitechProtocol.set_poll_rate 250).getD 2 0 = 0x04 ∧
     (LogitechProtocol.set_poll_rate 500).getD 2 0 = 0x02 ∧
     (LogitechProtocol.set_poll_rate 1000).getD 2 0 = 0x01 ∧
     (SteelSeriesProtocol.set_poll_rate 125).getD 1 0 = 0x03 ∧
     (SteelSeriesProtocol.set_poll_rate 250).getD 1 0 = 0x02 ∧
     (SteelSeriesProtocol.set_poll_rate 500).getD 1 0 = 0x01 ∧
     (SteelSeriesProtocol.set_poll_rate 1000).getD 1 0 = 0x00 ∧
     (GenericProtocol.set_poll_rate 125).getD 2 0 = 0x03 ∧
     (GenericProtocol.set_poll_rate 250).getD 2 0 = 0x02 ∧
     (GenericProtocol.set_poll_rate 500).getD 2 0 = 0x01 ∧
     (GenericProtocol.set_poll_rate 1000).getD 2 0 = 0x00 ∧
     (CyberpowerProtocol.set_poll_rate 125).getD 2 0 = 0x08 ∧
     (CyberpowerProtocol.set_poll_rate 250).getD 2 0 = 0x04 ∧
     (CyberpowerProtocol.set_poll_rate 500).getD 2 0 = 0x02 ∧
     (CyberpowerProtocol.set_poll_rate 1000).getD 2 0 = 0x01 ∧
     (IBuyPowerProtocol.set_poll_rate 125).getD 2 0 = 3 ∧
     (IBuyPowerProtocol.set_poll_rate 250).getD 2 0 = 2 ∧
     (IBuyPowerProtocol.set_poll_rate 500).getD 2 0 = 1 ∧
     (IBuyPowerProtocol.set_poll_rate 1000).getD 2 0 = 0) := by
  refine ⟨?_, ?_, by decide⟩
  · intro hmem
    simp only [List.mem_cons, List.mem_singleton, List.not_mem_nil, or_false] at hmem
    rcases hmem with rfl | rfl | rfl | rfl <;> cases p <;> exact ⟨by decide, by decide,
      by decide, by decide, by decide, by decide, by decide⟩
  · intro hmem
    cases connected with
    | false => rfl
    | true => simp [MouseController.set_polling_rate, hmem]

/-- Witness for C6: at 125 Hz with the Razer encoder every table hits, and
the out-of-table rate 600 Hz is rejected with nothing dispatched even while
connected. -/
theorem C6_poll_rate_tables_witness :
    ((dict_get? RazerProtocol.rate_map 125).isSome = true ∧
     (dict_get? LogitechProtocol.rate_map 125).isSome = true ∧
     (dict_get? SteelSeriesProtocol.rate_map 125).isSome = true ∧
     (dict_get? GenericProtocol.rate_map 125).isSome = true ∧
     (dict_get? CyberpowerProtocol.rate_map 125).isSome = true ∧
     (dict_get? IBuyPowerProtocol.rate_map 125).isSome = true ∧
     (MouseController.protocol_set_poll_rate ProtocolKind.razer 125).isSome = true) ∧
    MouseController.set_polling_rate true true ProtocolKind.razer 600 = (false, none) :=
  ⟨(C6_poll_rate_tables true true ProtocolKind.razer 125).1 (by decide),
   (C6_poll_rate_tables true true ProtocolKind.razer 600).2.1 (by decide)⟩

/-- C7: scan_devices returns the empty list when the HID library is missing
and when hid.enumerate() raises, and on every enumeration it returns a
plain list — the embedding is total, no exception crosses the boundary. -/
theorem C7_scan_devices_error_boundary :
    MouseDetector.scan_devices none = [] ∧
    (∀ e : String, MouseDetector.scan_devices (some (Except.error e)) = []) ∧
    (∀ devices : List HidDeviceInfo,
      MouseDetector.scan_devices (some (Except.ok devices)) =
        MouseDetector.process_devices devices) :=
  ⟨rfl, fun _ => rfl, fun _ => rfl⟩

/-- Counterexample for C8: after a strategy-5 connect on interface 0, if
the interface release raises, disconnect makes no further teardown call —
the kernel driver is never reattached and the handle never disposed, so the
teardown steps do NOT all run when this sub-step fails. -/
theorem C8_release_failure_skips_reattach :
    (MouseController.disconnect (MouseController.strategy5_state 0)
        { close_raises := false, release_raises := true,
          attach_raises := false, dispose_raises := false }).1 =
      [MouseController.TeardownAction.release_interface 0] := by
  decide

/-- C8 as amended: after a strategy-5 connect, disconnect releases the
claimed interface, reattaches the detached kernel driver and disposes the
handle, each exactly once and in that order, as long as the release call
itself returns — including when the reattachment or the disposal fails; if
the release raises, the remaining teardown is skipped by the surrounding
handler.  In both cases disconnect returns normally with the handle fields
cleared. -/
theorem C8_disconnect_teardown (i : Nat) (env : MouseController.TeardownEnv) :
    (env.release_raises = false →
      MouseController.disconnect (MouseController.strategy5_state i) env =
        ([MouseController.TeardownAction.release_interface i,
          MouseController.TeardownAction.attach_kernel_driver i,
          MouseController.TeardownAction.dispose_resources],
         { device := false, usb_device := false, interface_claimed := some i,
           kernel_driver_detached := true, connected := false })) ∧
    (env.release_raises = true →
      MouseController.disconnect (MouseController.strategy5_state i) env =
        ([MouseController.TeardownAction.release_interface i],
         { device := false, usb_device := false, interface_claimed := some i,
           kernel_driver_detached := true, connected := false })) := by
  constructor <;> intro h <;>
    simp [MouseController.disconnect, MouseController.strategy5_state, h]

/-- Witness for C8: on interface 0 with a reattachment that fails, the
release, the reattach attempt and the disposal each happen exactly once. -/
theorem C8_disconnect_teardown_witness :
    MouseController.disconnect (MouseController.strategy5_state 0)
      { close_raises := false, release_raises := false,
        attach_raises := true, dispose_raises := false } =
      ([MouseController.TeardownAction.release_interface 0,
        MouseController.TeardownAction.attach_kernel_driver 0,
        MouseController.TeardownAction.dispose_resources],
       { device := false, usb_device := false, interface_claimed := some 0,
         kernel_driver_detached := true, connected := false }) :=
  (C8_disconnect_teardown 0
    { close_raises := false, release_raises := false,
      attach_raises := true, dispose_raises := false }).1 rfl

/-- C10: for every selected protocol class other than the Razer one — the
classes `_get_protocol` yields for "Logitech", "SteelSeries",
"CyberpowerPC", "iBuyPower" and any unknown vendor — the controller's
set_angle_snapping returns False for either flag value without encoding or
dispatching anything, connected or not, because only RazerProtocol defines
set_angle_snapping. -/
theorem C10_angle_snapping_other_vendors (connected send_ok : Bool)
    (p : ProtocolKind) (enabled : Bool) (hp : p ≠ ProtocolKind.razer) :
    MouseController.set_angle_snapping connected send_ok p enabled = (false, none) ∧
    MouseController.has_set_angle_snapping p = false ∧
    MouseController._get_protocol ("Logitech") = ProtocolKind.logitech ∧
    MouseController._get_protocol ("SteelSeries") = ProtocolKind.steelseries ∧
    MouseController._get_protocol ("CyberpowerPC") = ProtocolKind.cyberpower ∧
    MouseController._get_protocol ("iBuyPower") = ProtocolKind.ibuypower ∧
    MouseController._get_protocol ("ACME") = ProtocolKind.generic := by
  have hhas : MouseController.has_set_angle_snapping p = false := by
    cases p
    case razer => exact absurd rfl hp
    all_goals rfl
  refine ⟨?_, hhas, by decide, by decide, by decide, by decide, by decide⟩
  simp [MouseController.set_angle_snapping, hhas]

/-- Witness for C10: the Logitech protocol class, connected, with the flag
on, is refused with nothing dispatched. -/
theorem C10_angle_snapping_other_vendors_witness :
    MouseController.set_angle_snapping true true ProtocolKind.logitech true = (false, none) ∧
    MouseController.has_set_angle_snapping ProtocolKind.logitech = false ∧
    MouseController._get_protocol ("Logitech") = ProtocolKind.logitech ∧
    MouseController._get_protocol ("SteelSeries") = ProtocolKind.steelseries ∧
    MouseController._get_protocol ("CyberpowerPC") = ProtocolKind.cyberpower ∧
    MouseController._get_protocol ("iBuyPower") = ProtocolKind.ibuypower ∧
    MouseController._get_protocol ("ACME") = ProtocolKind.generic :=
  C10_angle_snapping_other_vendors true true ProtocolKind.logitech true (by decide)

end MouseTool
